import Mathlib

/-!
# Scaffolding engine of the `systeme-design-helper` extension

A shallow embedding of `extension.js`: the template functions, the layout
builder `createMicroservicesStructure` over an explicit filesystem state, and
the dependency installer `installPackages` over an explicit process oracle.

JavaScript values are embedded as follows.  A prompt result that is a string or
`undefined` is an `Option String`; a multi-pick prompt result (an array of
strings or `undefined`) is an `Option (List String)`.  A synchronous `throw`
is an `Except` error which keeps the filesystem state reached so far.
-/

namespace Scaffold

/-! ## JavaScript values -/

/-- JavaScript truthiness of a value that is a string or `undefined`:
`undefined` and the empty string are falsy, every other string is truthy. -/
def truthy : Option String → Bool
  | none => false
  | some s => s != ""

/-- Errors a run can throw. -/
inductive JsError where
  | typeError (msg : String)
  | fsError (code : String) (path : List String)
  deriving DecidableEq, Repr

/-- The method `Array.prototype.join` on an array of strings. -/
def join : List String → String → String
  | [], _ => ""
  | [x], _ => x
  | x :: y :: rest, sep => x ++ sep ++ join (y :: rest) sep

/-! ## Filesystem state -/

/-- An absolute path, as the list of its segments from the filesystem root. -/
abbrev Path := List String

/-- What a path names. -/
inductive Node where
  | dir
  | file (content : String)
  deriving DecidableEq, Repr

/-- The filesystem: what each path names, if anything. -/
abbrev FS := Path → Option Node

/-- The function `path.join` applied to a path and plain segment names. -/
def pathJoin (p : Path) (segments : List String) : Path := p ++ segments

/-- The filesystem `fs` with `p` naming `n`. -/
def FS.set (fs : FS) (p : Path) (n : Node) : FS :=
  fun q => if q = p then some n else fs q

/-- Recursive directory creation along a path given innermost segment first:
an existing directory is left alone, a file at the path itself is `EEXIST`, a
missing directory is created after its parent, and a file in the way of an
ancestor is `ENOTDIR` on the path being made. -/
def mkdirp (fs : FS) : List String → Except JsError FS
  | [] =>
    match fs [] with
    | some (Node.file _) => .error (.fsError "EEXIST" [])
    | _ => .ok (fs.set [] .dir)
  | s :: parentRev =>
    match fs (s :: parentRev).reverse with
    | some .dir => .ok fs
    | some (.file _) => .error (.fsError "EEXIST" (s :: parentRev).reverse)
    | none =>
      match mkdirp fs parentRev with
      | .error _ => .error (.fsError "ENOTDIR" (s :: parentRev).reverse)
      | .ok fs1 => .ok (fs1.set (s :: parentRev).reverse .dir)

/-- The call `fs.mkdirSync(p, { recursive: true })`. -/
def mkdirSyncRecursive (fs : FS) (p : Path) : Except JsError FS :=
  mkdirp fs p.reverse

/-- The call `fs.writeFileSync(p, data)`: the parent must be a directory and
`p` must not be one; the file is created or overwritten.  A file in the way of
an ancestor is `ENOTDIR`, a missing parent is `ENOENT`. -/
def writeFile (fs : FS) (p : Path) (data : String) : Except JsError FS :=
  match fs p with
  | some .dir => .error (.fsError "EISDIR" p)
  | _ =>
    match fs p.dropLast with
    | some .dir => .ok (fs.set p (.file data))
    | some (.file _) => .error (.fsError "ENOTDIR" p)
    | none =>
      if p.dropLast.inits.any (fun q => (fs q).any (fun n => n != Node.dir)) then
        .error (.fsError "ENOTDIR" p)
      else .error (.fsError "ENOENT" p)

/-! ## Effectful code: a state of the filesystem and a possible exception -/

/-- A computation that reads and writes the filesystem and may throw; the
filesystem reached is kept when it throws. -/
def Js (α : Type) : Type := FS → Except JsError α × FS

/-- Return a value. -/
def Js.pure {α : Type} (a : α) : Js α := fun fs => (.ok a, fs)

/-- Sequence two computations; an exception skips the second. -/
def Js.bind {α β : Type} (m : Js α) (f : α → Js β) : Js β := fun fs =>
  match m fs with
  | (.ok a, fs1) => f a fs1
  | (.error e, fs1) => (.error e, fs1)

instance : Monad Js where
  pure := Js.pure
  bind := Js.bind

/-- Throw an exception. -/
def Js.throw {α : Type} (e : JsError) : Js α := fun fs => (.error e, fs)

/-- Run a fallible pure step. -/
def Js.ofExcept {α : Type} : Except JsError α → Js α
  | .ok a => Js.pure a
  | .error e => Js.throw e

/-- Run a filesystem call; the state is unchanged when the call fails. -/
def Js.ofFs (op : FS → Except JsError FS) : Js Unit := fun fs =>
  match op fs with
  | .ok fs1 => (.ok (), fs1)
  | .error e => (.error e, fs)

/-- The statement `fs.mkdirSync(p, { recursive: true });`. -/
def mkdirSync (p : Path) : Js Unit := Js.ofFs (fun fs => mkdirSyncRecursive fs p)

/-- The statement `fs.writeFileSync(p, data);`. -/
def writeFileSync (p : Path) (data : String) : Js Unit :=
  Js.ofFs (fun fs => writeFile fs p data)

/-- The method `Array.prototype.forEach` with a callback that may throw. -/
def forEach {α : Type} : List α → (α → Js Unit) → Js Unit
  | [], _ => Js.pure ()
  | x :: xs, f => Js.bind (f x) (fun _ => forEach xs f)

/-! ## Template library -/

/-- The text `tailwindConfig` of `setupUIFramework`. -/
def tailwindConfig : String :=
    "module.exports = \x7b\n" ++
    "            purge: ['./views/**/*.html', './src/**/*.\x7bjs,jsx,ts,tsx\x7d'],\n" ++
    "            darkMode: false,\n" ++
    "            theme: \x7b\n" ++
    "                extend: \x7b\x7d,\n" ++
    "            \x7d,\n" ++
    "            variants: \x7b\n" ++
    "                extend: \x7b\x7d,\n" ++
    "            \x7d,\n" ++
    "            plugins: [],\n" ++
    "        \x7d;"

/-- The text `cssContent` of `setupUIFramework`. -/
def cssContent : String :=
    "@tailwind base;\n" ++
    "@tailwind components;\n" ++
    "@tailwind utilities;"

/-- The text `sampleComponent` of `setupUIFramework`. -/
def sampleComponent : String :=
    "import React from 'react';\n" ++
    "import Button from '@material-ui/core/Button';\n" ++
    "\n" ++
    "export default function SampleButton() \x7b\n" ++
    "    return <Button variant=\"contained\" color=\"primary\">Sample Button</Button>;\n" ++
    "\x7d;"

/-- The text `envContent` of `createConfigFiles`. -/
def envContent : String :=
    "# Environment Variables\n" ++
    "PORT=3000\n" ++
    "DB_URL=YOUR_DATABASE_URL_HERE\n"

/-- The text `dockerfileContent` of `createDockerFiles`. -/
def dockerfileContent : String :=
    "\n" ++
    "FROM node:14\n" ++
    "\n" ++
    "WORKDIR /usr/src/app\n" ++
    "\n" ++
    "COPY package*.json ./ \n" ++
    "RUN npm install\n" ++
    "\n" ++
    "COPY . .\n" ++
    "\n" ++
    "EXPOSE 3000\n" ++
    "CMD [\"node\", \"index.js\"]\n"

/-- The text `dockerComposeContent` of `createDockerFiles`. -/
def dockerComposeContent : String :=
    "\n" ++
    "version: '3'\n" ++
    "services:\n" ++
    "  app:\n" ++
    "    build: .\n" ++
    "    ports:\n" ++
    "      - \"3000:3000\"\n" ++
    "    env_file:\n" ++
    "      - .env\n"

/-- The function `generateSampleController`. -/
def generateSampleController : String :=
    "\n" ++
    "exports.getSample = (req, res) => \x7b\n" ++
    "    res.send('Sample data');\n" ++
    "\x7d;"

/-- The function `generateSampleRoute`. -/
def generateSampleRoute : String :=
    "\n" ++
    "const express = require('express');\n" ++
    "const router = express.Router();\n" ++
    "const sampleController = require('../controllers/sampleController');\n" ++
    "\n" ++
    "router.get('/sample', sampleController.getSample);\n" ++
    "\n" ++
    "module.exports = router;"

/-- The function `generateSampleModel`. -/
def generateSampleModel (database : Option String) : String :=
  if database = some "MongoDB" then
      "\n" ++
      "const mongoose = require('mongoose');\n" ++
      "\n" ++
      "const SampleSchema = new mongoose.Schema(\x7b\n" ++
      "    name: String,\n" ++
      "    age: Number\n" ++
      "\x7d);\n" ++
      "\n" ++
      "module.exports = mongoose.model('Sample', SampleSchema);"
  else if database = some "PostgreSQL" then
      "\n" ++
      "const \x7b Client \x7d = require('pg');\n" ++
      "\n" ++
      "const client = new Client(\x7b connectionString: process.env.DB_URL \x7d);\n" ++
      "client.connect();\n"
  else ""

/-- The function `generateTestFile`. -/
def generateTestFile (testingFramework : Option String) : String :=
  if testingFramework = some "Mocha" then
      "\n" ++
      "const request = require('supertest');\n" ++
      "const app = require('../index');\n" ++
      "\n" ++
      "describe('GET /api/sample', () => \x7b\n" ++
      "    it('should return sample data', (done) => \x7b\n" ++
      "        request(app)\n" ++
      "            .get('/api/sample')\n" ++
      "            .expect(200)\n" ++
      "            .expect('Content-Type', /json/)\n" ++
      "            .end((err, res) => \x7b\n" ++
      "                if (err) return done(err);\n" ++
      "                done();\n" ++
      "            \x7d);\n" ++
      "    \x7d);\n" ++
      "\x7d);"
  else if testingFramework = some "Jest" then
      "\n" ++
      "const request = require('supertest');\n" ++
      "const app = require('../index');\n" ++
      "\n" ++
      "test('GET /api/sample', async () => \x7b\n" ++
      "    const response = await request(app).get('/api/sample');\n" ++
      "    expect(response.statusCode).toBe(200);\n" ++
      "    expect(response.headers['content-type']).toEqual(expect.stringContaining('json'));\n" ++
      "\x7d);"
  else ""

/-- The variable `dbConnection` of `generateIndexContent`. -/
def dbConnection (database : Option String) : String :=
  if database = some "MongoDB" then
      "const mongoose = require('mongoose');\n" ++
      "mongoose.connect(process.env.DB_URL);\n"
  else if database = some "PostgreSQL" then
      "const \x7b Client \x7d = require('pg');\n" ++
      "const client = new Client(\x7b connectionString: process.env.DB_URL \x7d);\n" ++
      "client.connect();\n"
  else ""

/-- The function `generateIndexContent`; reading `map` of an `undefined`
`middlewares` throws a `TypeError`. -/
def generateIndexContent (_theme database : Option String)
    (middlewares : Option (List String)) : Except JsError String :=
  let dbConnection := dbConnection database
  match middlewares with
  | none => .error (.typeError "Cannot read properties of undefined (reading 'map')")
  | some ms =>
    let middlewareImports :=
      join (ms.map fun m => "const " ++ m ++ " = require('" ++ m ++ "');") "\n"
    let middlewareUsage := join (ms.map fun m => "app.use(" ++ m ++ "());") "\n"
    .ok ("\n" ++
      "const express = require('express');\n" ++
      "const app = express();\n" ++
      "const PORT = process.env.PORT || 3000;\n" ++
      "\n" ++
      middlewareImports ++ "\n" ++
      dbConnection ++ "\n" ++
      "\n" ++
      "app.use(express.json());\n" ++
      middlewareUsage ++ "\n" ++
      "app.use('/api', require('./routes/sampleRoute'));\n" ++
      "\n" ++
      "app.listen(PORT, () => \x7b\n" ++
      "    console.log(\x60Service running on port $\x7bPORT\x7d\x60);\n" ++
      "\x7d);")

/-! ## Layout builder -/

/-- The function `setupUIFramework`. -/
def setupUIFramework (servicePath : Path) (uiFramework : Option String) : Js Unit :=
  if uiFramework = some "Tailwind CSS" then do
    writeFileSync (pathJoin servicePath ["tailwind.config.js"]) tailwindConfig
    mkdirSync (pathJoin servicePath ["styles"])
    writeFileSync (pathJoin servicePath ["styles", "tailwind.css"]) cssContent
  else if uiFramework = some "Material-UI" then do
    mkdirSync (pathJoin servicePath ["components"])
    writeFileSync (pathJoin servicePath ["components", "SampleButton.js"]) sampleComponent
  else
    pure ()

/-- The function `createConfigFiles`. -/
def createConfigFiles (servicePath : Path) (_database : Option String) : Js Unit :=
  writeFileSync (pathJoin servicePath [".env"]) envContent

/-- The function `createDockerFiles`. -/
def createDockerFiles (basePath : Path) : Js Unit := do
  writeFileSync (pathJoin basePath ["Dockerfile"]) dockerfileContent
  writeFileSync (pathJoin basePath ["docker-compose.yml"]) dockerComposeContent

/-- The array `services` of `createMicroservicesStructure`. -/
def services (architecture : Option String) : List String :=
  if architecture = some "Microservices" then ["service1", "service2"] else ["monolith"]

/-- The body of the `forEach` callback of `createMicroservicesStructure`. -/
def createService (basePath : Path) (theme : Option String)
    (middlewares : Option (List String)) (database testingFramework uiFramework : Option String)
    (service : String) : Js Unit := do
  let servicePath := pathJoin basePath [service]
  mkdirSync servicePath
  mkdirSync (pathJoin servicePath ["controllers"])
  mkdirSync (pathJoin servicePath ["models"])
  mkdirSync (pathJoin servicePath ["routes"])
  mkdirSync (pathJoin servicePath ["middlewares"])
  mkdirSync (pathJoin servicePath ["config"])
  mkdirSync (pathJoin servicePath ["services"])
  createConfigFiles servicePath database
  let indexContent ← Js.ofExcept (generateIndexContent theme database middlewares)
  writeFileSync (pathJoin servicePath ["index.js"]) indexContent
  writeFileSync (pathJoin servicePath ["controllers", "sampleController.js"])
    generateSampleController
  writeFileSync (pathJoin servicePath ["routes", "sampleRoute.js"]) generateSampleRoute
  if truthy database then
    writeFileSync (pathJoin servicePath ["models", "sampleModel.js"])
      (generateSampleModel database)
  if truthy testingFramework then
    mkdirSync (pathJoin servicePath ["tests"])
    writeFileSync (pathJoin servicePath ["tests", "sampleController.test.js"])
      (generateTestFile testingFramework)
  if truthy uiFramework then
    setupUIFramework servicePath uiFramework

/-- The function `createMicroservicesStructure`. -/
def createMicroservicesStructure (basePath : Path) (theme : Option String)
    (_packages middlewares : Option (List String))
    (architecture database testingFramework uiFramework : Option String) : Js Unit := do
  forEach (services architecture)
    (createService basePath theme middlewares database testingFramework uiFramework)
  let commonPath := pathJoin basePath ["common"]
  mkdirSync commonPath
  createDockerFiles basePath

/-- A directory `root` that exists with nothing below it. -/
def Fresh (fs : FS) (root : Path) : Prop :=
  fs root = some .dir ∧ ∀ rel : Path, rel ≠ [] → fs (root ++ rel) = none

/-- The filesystem holding `root`, its ancestors, and nothing else. -/
def emptyProject (root : Path) : FS :=
  fun q => if q.isPrefixOf root then some .dir else none


/-! ## Dependency installer and the scaffold command -/

/-- What the callback of `exec` receives when the process has ended: `error`
is `null` (here `none`) exactly when the process was launched and exited with
code 0. -/
structure ExecResult where
  error : Option String
  stdout : String
  stderr : String
  deriving DecidableEq, Repr

/-- A call of `exec`: the command line and the `cwd` option. -/
structure ExecCall where
  command : String
  cwd : Path
  deriving DecidableEq, Repr

/-- How a promise settles. -/
inductive Settled where
  | resolved
  | rejected (reason : String)
  deriving DecidableEq, Repr

/-- What a call of `installPackages` does: the processes it spawns, what it
returns (`none` for `undefined`, otherwise a promise and how it settles), and
what it logs to the console. -/
structure InstallRun where
  spawned : List ExecCall
  returned : Option Settled
  logged : List String
  deriving DecidableEq, Repr

/-- The function `installPackages`; `exec` tells how the external process
answers a call. -/
def installPackages (exec : ExecCall → ExecResult) (basePath : Path)
    (packages : Option (List String)) : InstallRun :=
  match packages with
  | none => { spawned := [], returned := none, logged := [] }
  | some ps =>
    if ps.length > 0 then
      let packageList := join ps " "
      let call : ExecCall := { command := "npm install " ++ packageList, cwd := basePath }
      let result := exec call
      if result.error.isSome then
        { spawned := [call],
          returned := some (.rejected ("Error installing packages: " ++ result.stderr)),
          logged := [] }
      else
        { spawned := [call], returned := some .resolved, logged := [result.stdout] }
    else { spawned := [], returned := none, logged := [] }

/-- The answers to the prompts of the scaffold command; `none` is a dismissed
prompt. -/
structure Prompts where
  folderUri : Option (List Path)
  theme : Option String
  packages : Option (List String)
  middlewares : Option (List String)
  architecture : Option String
  database : Option String
  testingFramework : Option String
  uiFramework : Option String

/-- Why the command handler stopped early. -/
inductive Thrown where
  | exception (e : JsError)
  | rejection (reason : String)
  deriving DecidableEq, Repr

/-- What a run of the scaffold command does. -/
structure CommandRun where
  fs : FS
  spawned : List ExecCall
  infoMessages : List String
  thrown : Option Thrown

/-- The handler of the command `systeme-design-helper.createMicroservices`
registered by `activate`. -/
def createMicroservicesCommand (exec : ExecCall → ExecResult) (p : Prompts) (fs0 : FS) :
    CommandRun :=
  match p.folderUri with
  | some (folder :: _) =>
    let basePath := folder
    match createMicroservicesStructure basePath p.theme p.packages p.middlewares
        p.architecture p.database p.testingFramework p.uiFramework fs0 with
    | (.error e, fs1) =>
      { fs := fs1, spawned := [], infoMessages := [], thrown := some (.exception e) }
    | (.ok _, fs1) =>
      let install := installPackages exec basePath p.packages
      match install.returned with
      | some (.rejected reason) =>
        { fs := fs1, spawned := install.spawned, infoMessages := [],
          thrown := some (.rejection reason) }
      | _ =>
        { fs := fs1, spawned := install.spawned,
          infoMessages := ["Microservices architecture created successfully!"],
          thrown := none }
  | _ => { fs := fs0, spawned := [], infoMessages := [], thrown := none }

/-! ## Relative layouts

The state a run reaches from a fresh root is the initial filesystem overlaid
with a list of entries whose paths are relative to the root. -/

/-- Entries relative to a root, in the order of creation. -/
abbrev Layout := List (Path × Node)

/-- What a relative path names in a layout laid over a fresh root; the empty
relative path is the root itself. -/
def Layout.get : Layout → Path → Option Node
  | [], rel => if rel = [] then some .dir else none
  | e :: L, rel => if e.1 ≠ [] ∧ e.1 = rel then some e.2 else Layout.get L rel

/-- The filesystem `fs0` with the entries of `L` placed below `root`. -/
def overlay (fs0 : FS) (root : Path) : Layout → FS
  | [] => fs0
  | e :: L => fun q => if e.1 ≠ [] ∧ root ++ e.1 = q then some e.2 else overlay fs0 root L q

/-- Every entry of the layout lies in the directory `unit` of the root. -/
def Layout.Under (unit : String) (L : Layout) : Prop :=
  ∀ e ∈ L, e.1.head? = some unit

/-- The entries `createService` adds for one service, in the order of creation;
`c` is the text of `index.js`. -/
def unitLayout (unit : String) (c : String) (database testingFramework uiFramework : Option String) :
    Layout :=
  [([unit], .dir),
   ([unit, "controllers"], .dir),
   ([unit, "models"], .dir),
   ([unit, "routes"], .dir),
   ([unit, "middlewares"], .dir),
   ([unit, "config"], .dir),
   ([unit, "services"], .dir),
   ([unit, ".env"], .file envContent),
   ([unit, "index.js"], .file c),
   ([unit, "controllers", "sampleController.js"], .file generateSampleController),
   ([unit, "routes", "sampleRoute.js"], .file generateSampleRoute)]
  ++ (if truthy database then
        [([unit, "models", "sampleModel.js"], Node.file (generateSampleModel database))]
      else [])
  ++ (if truthy testingFramework then
        [([unit, "tests"], Node.dir),
         ([unit, "tests", "sampleController.test.js"],
           Node.file (generateTestFile testingFramework))]
      else [])
  ++ (if uiFramework = some "Tailwind CSS" then
        [([unit, "tailwind.config.js"], Node.file tailwindConfig),
         ([unit, "styles"], Node.dir),
         ([unit, "styles", "tailwind.css"], Node.file cssContent)]
      else if uiFramework = some "Material-UI" then
        [([unit, "components"], Node.dir),
         ([unit, "components", "SampleButton.js"], Node.file sampleComponent)]
      else [])

/-- The entries `createMicroservicesStructure` adds at the root after the
services. -/
def rootLayout : Layout :=
  [(["common"], .dir),
   (["Dockerfile"], .file dockerfileContent),
   (["docker-compose.yml"], .file dockerComposeContent)]

/-- The entries a complete run of `createMicroservicesStructure` adds below the
root, in the order of creation; `c` is the text of `index.js`. -/
def layout (architecture : Option String) (c : String)
    (database testingFramework uiFramework : Option String) : Layout :=
  (services architecture).flatMap
      (fun unit => unitLayout unit c database testingFramework uiFramework)
    ++ rootLayout

/-- The entries `createService` has added when `generateIndexContent` throws. -/
def abortedUnitLayout (unit : String) : Layout :=
  [([unit], .dir),
   ([unit, "controllers"], .dir),
   ([unit, "models"], .dir),
   ([unit, "routes"], .dir),
   ([unit, "middlewares"], .dir),
   ([unit, "config"], .dir),
   ([unit, "services"], .dir),
   ([unit, ".env"], .file envContent)]

/-- The entries a run has added when it throws in its first service. -/
def abortedLayout (architecture : Option String) : Layout :=
  abortedUnitLayout (if architecture = some "Microservices" then "service1" else "monolith")

/-- The lines of a text: the pieces between newline characters, where a final
newline ends the last line instead of starting an empty one. -/
def textLines (s : String) : List String :=
  let pieces := (s.data.splitOn '\n').map String.mk
  if pieces.getLast? = some "" then pieces.dropLast else pieces

/-! ## Symbolic execution from a fresh root -/

theorem overlay_nil (fs0 : FS) (root : Path) : overlay fs0 root [] = fs0 := rfl

theorem overlay_apply {fs0 : FS} {root : Path} (hF : Fresh fs0 root) (L : Layout)
    (rel : Path) : overlay fs0 root L (root ++ rel) = L.get rel := by
  induction L with
  | nil =>
    by_cases h : rel = []
    · subst h
      simp [overlay, Layout.get, hF.1]
    · simp [overlay, Layout.get, h, hF.2 rel h]
  | cons e L ih =>
    simp only [overlay, Layout.get, List.append_cancel_left_eq, ih]

theorem overlay_set {fs0 : FS} {root : Path} (L : Layout) (rel : Path) (n : Node)
    (hne : rel ≠ []) (habs : L.get rel = none) :
    (overlay fs0 root L).set (root ++ rel) n = overlay fs0 root (L ++ [(rel, n)]) := by
  induction L with
  | nil =>
    funext q
    by_cases hq : q = root ++ rel
    · simp [FS.set, overlay, hq, hne]
    · have hq2 : ¬ (root ++ rel = q) := fun h => hq h.symm
      simp [FS.set, overlay, hq, hq2]
  | cons e L ih =>
    have hcond : ¬ (e.1 ≠ [] ∧ e.1 = rel) := by
      intro hc
      have hget : Layout.get (e :: L) rel = some e.2 := by
        simp only [Layout.get]
        exact if_pos hc
      rw [hget] at habs
      cases habs
    have hrest : Layout.get L rel = none := by
      simpa only [Layout.get, hcond, if_false] using habs
    funext q
    have ih2 := congrFun (ih hrest) q
    show FS.set _ _ _ q = overlay fs0 root (e :: (L ++ [(rel, n)])) q
    simp only [overlay]
    rw [← ih2]
    by_cases hq : q = root ++ rel
    · subst hq
      have : ¬ (e.1 ≠ [] ∧ root ++ e.1 = root ++ rel) := by
        simpa using hcond
      simp only [FS.set, if_true, if_neg this]
    · simp only [FS.set, if_neg hq]

theorem mkdirSyncRecursive_dir (fs : FS) (p : Path) (h : fs p = some .dir) :
    mkdirSyncRecursive fs p = .ok fs := by
  unfold mkdirSyncRecursive
  cases hp : p.reverse with
  | nil =>
    have hnil : p = [] := by simpa using hp
    subst hnil
    have hset : fs.set [] .dir = fs := by
      funext q
      by_cases hq : q = []
      · subst hq
        simp [FS.set, h]
      · simp [FS.set, hq]
    simp [mkdirp, h, hset]
  | cons s r =>
    have hrev : (s :: r).reverse = p := by rw [← hp, List.reverse_reverse]
    simp only [mkdirp]
    rw [hrev, h]

theorem mkdirSyncRecursive_new (fs : FS) (p : Path) (hne : p ≠ [])
    (hpar : fs p.dropLast = some .dir) (habs : fs p = none) :
    mkdirSyncRecursive fs p = .ok (fs.set p .dir) := by
  have hparent := mkdirSyncRecursive_dir fs p.dropLast hpar
  unfold mkdirSyncRecursive at hparent ⊢
  cases hp : p.reverse with
  | nil => exact absurd (by simpa using hp) hne
  | cons s r =>
    have hrev : (s :: r).reverse = p := by rw [← hp, List.reverse_reverse]
    have hdrop : p.dropLast.reverse = r := by
      rw [← hrev]
      simp
    rw [hdrop] at hparent
    simp only [mkdirp]
    rw [hrev, habs, hparent]

theorem writeFile_new (fs : FS) (p : Path) (data : String)
    (hpar : fs p.dropLast = some .dir) (habs : fs p = none) :
    writeFile fs p data = .ok (fs.set p (.file data)) := by
  simp [writeFile, hpar, habs]

theorem mkdirSync_step {fs0 : FS} {root : Path} (hF : Fresh fs0 root) (L : Layout)
    (rel : Path) (hne : rel ≠ []) (hpar : L.get rel.dropLast = some .dir)
    (habs : L.get rel = none) :
    mkdirSync (root ++ rel) (overlay fs0 root L)
      = (.ok (), overlay fs0 root (L ++ [(rel, .dir)])) := by
  have hp : (root ++ rel).dropLast = root ++ rel.dropLast := by
    rw [List.dropLast_append_of_ne_nil _ hne]
  have h1 : overlay fs0 root L (root ++ rel).dropLast = some .dir := by
    rw [hp, overlay_apply hF, hpar]
  have h2 : overlay fs0 root L (root ++ rel) = none := by
    rw [overlay_apply hF, habs]
  have hne2 : root ++ rel ≠ [] := by simp [hne]
  simp only [mkdirSync, Js.ofFs, mkdirSyncRecursive_new _ _ hne2 h1 h2,
    overlay_set L rel .dir hne habs]

theorem writeFileSync_step {fs0 : FS} {root : Path} (hF : Fresh fs0 root) (L : Layout)
    (rel : Path) (data : String) (hne : rel ≠ [])
    (hpar : L.get rel.dropLast = some .dir) (habs : L.get rel = none) :
    writeFileSync (root ++ rel) data (overlay fs0 root L)
      = (.ok (), overlay fs0 root (L ++ [(rel, .file data)])) := by
  have hp : (root ++ rel).dropLast = root ++ rel.dropLast := by
    rw [List.dropLast_append_of_ne_nil _ hne]
  have h1 : overlay fs0 root L (root ++ rel).dropLast = some .dir := by
    rw [hp, overlay_apply hF, hpar]
  have h2 : overlay fs0 root L (root ++ rel) = none := by
    rw [overlay_apply hF, habs]
  simp only [writeFileSync, Js.ofFs, writeFile_new _ _ data h1 h2,
    overlay_set L rel (.file data) hne habs]

theorem bind_apply {α β : Type} (m : Js α) (f : α → Js β) (fs : FS) :
    (m >>= f) fs = Js.bind m f fs := rfl

theorem pure_apply {α : Type} (a : α) (fs : FS) : (pure a : Js α) fs = (.ok a, fs) := rfl

theorem Layout.get_root (L : Layout) : L.get [] = some .dir := by
  induction L with
  | nil => rfl
  | cons e L ih =>
    have hcond : ¬ (e.1 ≠ [] ∧ e.1 = []) := fun h => h.1 h.2
    simp only [Layout.get, if_neg hcond, ih]

theorem Layout.get_append_of_none (L M : Layout) (rel : Path) (h : L.get rel = none) :
    (L ++ M).get rel = M.get rel := by
  induction L with
  | nil => rfl
  | cons e L ih =>
    by_cases hcond : e.1 ≠ [] ∧ e.1 = rel
    · have hget : Layout.get (e :: L) rel = some e.2 := by
        simp only [Layout.get]
        exact if_pos hcond
      rw [hget] at h
      cases h
    · have hrest : Layout.get L rel = none := by
        simpa only [Layout.get, hcond, if_false] using h
      show Layout.get (e :: (L ++ M)) rel = M.get rel
      simp only [Layout.get, if_neg hcond]
      exact ih hrest

theorem Layout.get_none_of_under {unit : String} {L : Layout} (hL : L.Under unit)
    (rel : Path) (hne : rel ≠ []) (hrel : rel.head? ≠ some unit) : L.get rel = none := by
  induction L with
  | nil => simp [Layout.get, hne]
  | cons e L ih =>
    have hcond : ¬ (e.1 ≠ [] ∧ e.1 = rel) := by
      rintro ⟨_, h2⟩
      apply hrel
      rw [← h2]
      exact hL e (List.mem_cons_self _ _)
    simp only [Layout.get, if_neg hcond]
    exact ih (fun e2 he2 => hL e2 (List.mem_cons_of_mem _ he2))

theorem unitLayout_under (unit c : String) (db tf ui : Option String) :
    (unitLayout unit c db tf ui).Under unit := by
  intro e he
  unfold unitLayout at he
  simp only [List.mem_append, List.mem_cons, List.mem_singleton, List.not_mem_nil,
    or_false] at he
  rcases he with ((h | h) | h) | h
  · rcases h with h | h | h | h | h | h | h | h | h | h | h <;> subst h <;> rfl
  · split at h
    · simp only [List.mem_singleton] at h
      subst h
      rfl
    · cases h
  · split at h
    · simp only [List.mem_cons, List.mem_singleton, List.not_mem_nil, or_false] at h
      rcases h with h | h <;> subst h <;> rfl
    · cases h
  · split at h
    · simp only [List.mem_cons, List.mem_singleton, List.not_mem_nil, or_false] at h
      rcases h with h | h | h <;> subst h <;> rfl
    · split at h
      · simp only [List.mem_cons, List.mem_singleton, List.not_mem_nil, or_false] at h
        rcases h with h | h <;> subst h <;> rfl
      · cases h

theorem truthy_tailwind : truthy (some "Tailwind CSS") = true := rfl

theorem material_ne_tailwind :
    ((some "Material-UI" : Option String) = some "Tailwind CSS") = False := by
  simp

theorem truthy_material : truthy (some "Material-UI") = true := rfl

set_option maxHeartbeats 1000000 in
theorem createService_run {fs0 : FS} {root : Path} (hF : Fresh fs0 root) (L : Layout)
    (unit : String) (hL : ∀ rel, L.get (unit :: rel) = none)
    (t : Option String) (ms : List String) (db tf ui : Option String) (c : String)
    (hc : generateIndexContent t db (some ms) = .ok c) :
    createService root t (some ms) db tf ui unit (overlay fs0 root L)
      = (.ok (), overlay fs0 root (L ++ unitLayout unit c db tf ui)) := by
  simp (disch := simp [Layout.get, Layout.get_root, Layout.get_append_of_none, hL]) only
    [createService, createConfigFiles, unitLayout, hc, pathJoin, Js.bind, Js.pure,
      Js.ofExcept, bind_apply, pure_apply, mkdirSync_step hF, writeFileSync_step hF,
      List.append_assoc, List.cons_append, List.nil_append]
  cases hdb : truthy db <;>
  simp (disch := simp [Layout.get, Layout.get_root, Layout.get_append_of_none, hL]) only
    [pure_apply, writeFileSync_step hF, List.append_assoc, List.cons_append,
      List.nil_append, if_true, if_false, Bool.false_eq_true] <;>
  cases htf : truthy tf <;>
  simp (disch := simp [Layout.get, Layout.get_root, Layout.get_append_of_none, hL]) only
    [pure_apply, bind_apply, Js.bind, mkdirSync_step hF, writeFileSync_step hF,
      List.append_assoc, List.cons_append, List.nil_append, if_true, if_false,
      Bool.false_eq_true] <;>
  by_cases hui1 : ui = some "Tailwind CSS"
  all_goals first
    | (subst hui1
       simp (disch := simp [Layout.get, Layout.get_root, Layout.get_append_of_none, hL]) only
         [setupUIFramework, truthy_tailwind, pathJoin, pure_apply, bind_apply, Js.bind,
           mkdirSync_step hF, writeFileSync_step hF, List.append_assoc, List.cons_append,
           List.nil_append, List.append_nil, if_true, if_false])
    | (by_cases hui2 : ui = some "Material-UI"
       · subst hui2
         simp (disch := simp [Layout.get, Layout.get_root, Layout.get_append_of_none, hL]) only
           [setupUIFramework, truthy_material, material_ne_tailwind, pathJoin, pure_apply,
             bind_apply, Js.bind, mkdirSync_step hF, writeFileSync_step hF,
             List.append_assoc, List.cons_append, List.nil_append, List.append_nil, if_true,
             if_false]
       · cases hu : truthy ui <;>
         simp only [setupUIFramework, hui1, hui2, pure_apply, List.append_nil, if_true,
           if_false, Bool.false_eq_true])

theorem unitLayout_get_none (unit c : String) (db tf ui : Option String) (rel : Path)
    (hne : rel ≠ []) (hrel : rel.head? ≠ some unit) :
    (unitLayout unit c db tf ui).get rel = none :=
  Layout.get_none_of_under (unitLayout_under unit c db tf ui) rel hne hrel

/-- The last three steps of `createMicroservicesStructure`. -/
theorem rootSteps_run {fs0 : FS} {root : Path} (hF : Fresh fs0 root) (L : Layout)
    (h1 : L.get ["common"] = none) (h2 : L.get ["Dockerfile"] = none)
    (h3 : L.get ["docker-compose.yml"] = none) :
    (mkdirSync (pathJoin root ["common"]) >>= fun _ => createDockerFiles root)
        (overlay fs0 root L)
      = (.ok (), overlay fs0 root (L ++ rootLayout)) := by
  simp (disch := simp [Layout.get, Layout.get_root, Layout.get_append_of_none, h1, h2, h3]) only
    [createDockerFiles, rootLayout, pathJoin, Js.bind, bind_apply, mkdirSync_step hF,
      writeFileSync_step hF, List.append_assoc, List.cons_append, List.nil_append]

/-- Closed form of a complete run from a fresh root: no exception, and the
filesystem is the initial one overlaid with `layout`. -/
theorem createMicroservicesStructure_run {fs0 : FS} {root : Path} (hF : Fresh fs0 root)
    (t : Option String) (pk : Option (List String)) (ms : List String)
    (arch db tf ui : Option String) (c : String)
    (hc : generateIndexContent t db (some ms) = .ok c) :
    createMicroservicesStructure root t pk (some ms) arch db tf ui fs0
      = (.ok (), overlay fs0 root (layout arch c db tf ui)) := by
  show createMicroservicesStructure root t pk (some ms) arch db tf ui (overlay fs0 root [])
      = _
  by_cases harch : arch = some "Microservices"
  · subst harch
    have h1 := createService_run hF [] "service1" (fun rel => by simp [Layout.get])
      t ms db tf ui c hc
    have h2 := createService_run hF (unitLayout "service1" c db tf ui) "service2"
      (fun rel => unitLayout_get_none "service1" c db tf ui _ (by simp) (by simp))
      t ms db tf ui c hc
    have hU : ∀ rel : Path, rel ≠ [] → rel.head? ≠ some "service1" →
        rel.head? ≠ some "service2" →
        Layout.get (unitLayout "service1" c db tf ui ++ unitLayout "service2" c db tf ui)
          rel = none := by
      intro rel hne hr1 hr2
      rw [Layout.get_append_of_none _ _ _
        (unitLayout_get_none "service1" c db tf ui rel hne hr1)]
      exact unitLayout_get_none "service2" c db tf ui rel hne hr2
    have h3 := rootSteps_run hF _ (hU ["common"] (by simp) (by simp) (by simp))
      (hU ["Dockerfile"] (by simp) (by simp) (by simp))
      (hU ["docker-compose.yml"] (by simp) (by simp) (by simp))
    rw [List.nil_append] at h1
    rw [List.append_assoc] at h3
    simp only [createMicroservicesStructure, services, forEach, h1, h2, Js.bind, Js.pure,
      bind_apply, if_true, layout, List.flatMap_cons, List.flatMap_nil, List.append_assoc,
      List.append_nil]
    exact h3
  · have h1 := createService_run hF [] "monolith" (fun rel => by simp [Layout.get])
      t ms db tf ui c hc
    rw [List.nil_append] at h1
    have hU : ∀ rel : Path, rel ≠ [] → rel.head? ≠ some "monolith" →
        Layout.get (unitLayout "monolith" c db tf ui) rel = none :=
      fun rel hne hr1 => unitLayout_get_none "monolith" c db tf ui rel hne hr1
    have h3 := rootSteps_run hF _ (hU ["common"] (by simp) (by simp))
      (hU ["Dockerfile"] (by simp) (by simp))
      (hU ["docker-compose.yml"] (by simp) (by simp))
    simp only [createMicroservicesStructure, services, forEach, h1, Js.bind, Js.pure,
      bind_apply, harch, if_false, layout, List.flatMap_cons, List.flatMap_nil,
      List.append_assoc, List.append_nil]
    exact h3

/-! ## Reading the final layout -/

theorem Layout.get_append (L M : Layout) (rel : Path) :
    (L ++ M).get rel = (L.get rel).or (M.get rel) := by
  induction L with
  | nil =>
    by_cases h : rel = []
    · subst h
      simp [Layout.get, Layout.get_root]
    · simp [Layout.get, h]
  | cons e L ih =>
    show Layout.get (e :: (L ++ M)) rel = _
    by_cases hcond : e.1 ≠ [] ∧ e.1 = rel
    · simp only [Layout.get, if_pos hcond, Option.or]
    · simp only [Layout.get, if_neg hcond, ih]

theorem rootLayout_get_unit (unit : String) (rel : Path) (h1 : unit ≠ "common")
    (h2 : unit ≠ "Dockerfile") (h3 : unit ≠ "docker-compose.yml") :
    rootLayout.get (unit :: rel) = none := by
  have e1 : ¬ ("common" = unit) := fun h => h1 h.symm
  have e2 : ¬ ("Dockerfile" = unit) := fun h => h2 h.symm
  have e3 : ¬ ("docker-compose.yml" = unit) := fun h => h3 h.symm
  simp [rootLayout, Layout.get, e1, e2, e3]

theorem layout_get_unit (arch : Option String) (c : String) (db tf ui : Option String)
    (unit : String) (hu : unit ∈ services arch) (rel : Path) :
    (layout arch c db tf ui).get (unit :: rel)
      = (unitLayout unit c db tf ui).get (unit :: rel) := by
  unfold services at hu
  unfold layout services
  split at hu
  · rename_i harch
    simp only [harch, if_true, List.flatMap_cons, List.flatMap_nil, List.append_nil,
      Layout.get_append]
    simp only [List.mem_cons, List.mem_singleton, List.not_mem_nil, or_false] at hu
    rcases hu with hu | hu
    · subst hu
      rw [unitLayout_get_none "service2" c db tf ui _ (by simp) (by simp),
        rootLayout_get_unit _ _ (by decide) (by decide) (by decide)]
      simp
    · subst hu
      rw [unitLayout_get_none "service1" c db tf ui _ (by simp) (by simp),
        rootLayout_get_unit _ _ (by decide) (by decide) (by decide)]
      simp
  · rename_i harch
    simp only [harch, if_false, List.flatMap_cons, List.flatMap_nil, List.append_nil,
      Layout.get_append]
    simp only [List.mem_singleton] at hu
    subst hu
    rw [rootLayout_get_unit _ _ (by decide) (by decide) (by decide)]
    simp

theorem generateIndexContent_ok (t db : Option String) (ms : List String) :
    ∃ c, generateIndexContent t db (some ms) = .ok c := ⟨_, rfl⟩

/-- After a complete run from a fresh root, a path below a service directory
names what the layout of that service says. -/
theorem run_get_unit {fs0 : FS} {root : Path} (hF : Fresh fs0 root)
    (t : Option String) (pk : Option (List String)) (ms : List String)
    (arch db tf ui : Option String) (c : String)
    (hc : generateIndexContent t db (some ms) = .ok c)
    (unit : String) (hu : unit ∈ services arch) (rel : Path) :
    (createMicroservicesStructure root t pk (some ms) arch db tf ui fs0).2
        (root ++ unit :: rel)
      = (unitLayout unit c db tf ui).get (unit :: rel) := by
  rw [createMicroservicesStructure_run hF t pk ms arch db tf ui c hc]
  show overlay fs0 root _ (root ++ unit :: rel) = _
  rw [overlay_apply hF, layout_get_unit arch c db tf ui unit hu rel]

/-! ## Properties of the specification -/

/-- With a middleware list: from a fresh root and for every choice of theme,
packages, architecture, database, testing framework and UI framework, the run
completes, and every service directory holds the six subfolders controllers,
models, routes, middlewares, config and services; it holds a subfolder tests
exactly when a testing framework was chosen, a subfolder styles exactly when
the UI framework is Tailwind CSS, and a subfolder components exactly when the
UI framework is Material-UI. -/
theorem unit_subfolders_of_complete_run (fs0 : FS) (root : Path) (hF : Fresh fs0 root)
    (theme : Option String) (packages : Option (List String)) (ms : List String)
    (arch db tf ui : Option String) (unit : String) (hu : unit ∈ services arch) :
    (createMicroservicesStructure root theme packages (some ms) arch db tf ui fs0).1 = .ok ()
    ∧ (createMicroservicesStructure root theme packages (some ms) arch db tf ui fs0).2
        (root ++ [unit]) = some .dir
    ∧ (∀ sub ∈ ["controllers", "models", "routes", "middlewares", "config", "services"],
        (createMicroservicesStructure root theme packages (some ms) arch db tf ui fs0).2
          (root ++ [unit, sub]) = some .dir)
    ∧ ((createMicroservicesStructure root theme packages (some ms) arch db tf ui fs0).2
          (root ++ [unit, "tests"]) = some .dir ↔ truthy tf = true)
    ∧ ((createMicroservicesStructure root theme packages (some ms) arch db tf ui fs0).2
          (root ++ [unit, "styles"]) = some .dir ↔ ui = some "Tailwind CSS")
    ∧ ((createMicroservicesStructure root theme packages (some ms) arch db tf ui fs0).2
          (root ++ [unit, "components"]) = some .dir ↔ ui = some "Material-UI") := by
  obtain ⟨c, hc⟩ := generateIndexContent_ok theme db ms
  have hget := run_get_unit hF theme packages ms arch db tf ui c hc unit hu
  refine ⟨?_, ?_, ?_, ?_, ?_, ?_⟩
  · rw [createMicroservicesStructure_run hF theme packages ms arch db tf ui c hc]
  · rw [hget []]
    simp [unitLayout, Layout.get]
  · intro sub hsub
    rw [hget [sub]]
    simp only [List.mem_cons, List.mem_singleton, List.not_mem_nil, or_false] at hsub
    rcases hsub with h | h | h | h | h | h <;> subst h <;> simp [unitLayout, Layout.get]
  · rw [hget ["tests"]]
    cases hdb : truthy db <;> cases htf : truthy tf <;>
      by_cases h1 : ui = some "Tailwind CSS" <;> by_cases h2 : ui = some "Material-UI" <;>
      simp [unitLayout, Layout.get, Layout.get_append, hdb, htf, h1, h2]
  · rw [hget ["styles"]]
    cases hdb : truthy db <;> cases htf : truthy tf <;>
      by_cases h1 : ui = some "Tailwind CSS" <;> by_cases h2 : ui = some "Material-UI" <;>
      simp [unitLayout, Layout.get, Layout.get_append, hdb, htf, h1, h2]
  · rw [hget ["components"]]
    cases hdb : truthy db <;> cases htf : truthy tf <;>
      by_cases h1 : ui = some "Tailwind CSS" <;> by_cases h2 : ui = some "Material-UI" <;>
      simp [unitLayout, Layout.get, Layout.get_append, hdb, htf, h1, h2]

theorem rootLayout_get_dir (name : String) :
    rootLayout.get [name] = some .dir ↔ name = "common" := by
  by_cases h1 : name = "common"
  · subst h1
    simp [rootLayout, Layout.get]
  · by_cases h2 : name = "Dockerfile"
    · subst h2
      simp [rootLayout, Layout.get]
    · by_cases h3 : name = "docker-compose.yml"
      · subst h3
        simp [rootLayout, Layout.get]
      · have e1 : ¬ ("common" = name) := fun h => h1 h.symm
        have e2 : ¬ ("Dockerfile" = name) := fun h => h2 h.symm
        have e3 : ¬ ("docker-compose.yml" = name) := fun h => h3 h.symm
        simp [rootLayout, Layout.get, h1, e1, e2, e3]

theorem unitLayout_get_self (unit c : String) (db tf ui : Option String) :
    (unitLayout unit c db tf ui).get [unit] = some .dir := by
  simp [unitLayout, Layout.get]

theorem rootLayout_get_below_common (rel : Path) (hrel : rel ≠ []) :
    rootLayout.get ("common" :: rel) = none := by
  have e : ¬ ([] = rel) := fun h => hrel h.symm
  simp [rootLayout, Layout.get, e]

/-- With a middleware list: from a fresh root, with architecture Monolith the
directories directly under the root are the one unit monolith and the shared
folder common, and with architecture Microservices they are the two units
service1 and service2 and the shared folder common; no other directory is
created there, and the folder common holds nothing. -/
theorem unit_directories_of_complete_run (fs0 : FS) (root : Path) (hF : Fresh fs0 root)
    (theme : Option String) (packages : Option (List String)) (ms : List String)
    (db tf ui : Option String) :
    (createMicroservicesStructure root theme packages (some ms) (some "Monolith")
        db tf ui fs0).1 = .ok ()
    ∧ (∀ name : String,
        (createMicroservicesStructure root theme packages (some ms) (some "Monolith")
          db tf ui fs0).2 (root ++ [name]) = some .dir
        ↔ name = "monolith" ∨ name = "common")
    ∧ (∀ rel : Path, rel ≠ [] →
        (createMicroservicesStructure root theme packages (some ms) (some "Monolith")
          db tf ui fs0).2 (root ++ "common" :: rel) = none)
    ∧ (createMicroservicesStructure root theme packages (some ms) (some "Microservices")
        db tf ui fs0).1 = .ok ()
    ∧ (∀ name : String,
        (createMicroservicesStructure root theme packages (some ms) (some "Microservices")
          db tf ui fs0).2 (root ++ [name]) = some .dir
        ↔ name = "service1" ∨ name = "service2" ∨ name = "common")
    ∧ (∀ rel : Path, rel ≠ [] →
        (createMicroservicesStructure root theme packages (some ms) (some "Microservices")
          db tf ui fs0).2 (root ++ "common" :: rel) = none) := by
  obtain ⟨c, hc⟩ := generateIndexContent_ok theme db ms
  have hmono : (some "Monolith" : Option String) ≠ some "Microservices" := by decide
  refine ⟨?_, ?_, ?_, ?_, ?_, ?_⟩
  · rw [createMicroservicesStructure_run hF theme packages ms _ db tf ui c hc]
  · intro name
    rw [createMicroservicesStructure_run hF theme packages ms _ db tf ui c hc]
    show overlay fs0 root _ (root ++ [name]) = _ ↔ _
    rw [overlay_apply hF]
    simp only [layout, services, if_neg hmono, List.flatMap_cons, List.flatMap_nil,
      List.append_nil, Layout.get_append]
    by_cases h1 : name = "monolith"
    · subst h1
      simp [unitLayout_get_self]
    · rw [unitLayout_get_none "monolith" c db tf ui [name] (by simp) (by simpa using h1)]
      simp [rootLayout_get_dir, h1]
  · intro rel hrel
    rw [createMicroservicesStructure_run hF theme packages ms _ db tf ui c hc]
    show overlay fs0 root _ (root ++ "common" :: rel) = _
    rw [overlay_apply hF]
    simp only [layout, services, if_neg hmono, List.flatMap_cons, List.flatMap_nil,
      List.append_nil, Layout.get_append]
    rw [unitLayout_get_none "monolith" c db tf ui _ (by simp) (by simp),
      rootLayout_get_below_common rel hrel]
    rfl
  · rw [createMicroservicesStructure_run hF theme packages ms _ db tf ui c hc]
  · intro name
    rw [createMicroservicesStructure_run hF theme packages ms _ db tf ui c hc]
    show overlay fs0 root _ (root ++ [name]) = _ ↔ _
    rw [overlay_apply hF]
    simp only [layout, services, if_true, List.flatMap_cons, List.flatMap_nil,
      List.append_nil, Layout.get_append]
    by_cases h1 : name = "service1"
    · subst h1
      simp [unitLayout_get_self]
    · rw [unitLayout_get_none "service1" c db tf ui [name] (by simp) (by simpa using h1)]
      by_cases h2 : name = "service2"
      · subst h2
        simp [unitLayout_get_self]
      · rw [unitLayout_get_none "service2" c db tf ui [name] (by simp) (by simpa using h2)]
        simp [rootLayout_get_dir, h1, h2]
  · intro rel hrel
    rw [createMicroservicesStructure_run hF theme packages ms _ db tf ui c hc]
    show overlay fs0 root _ (root ++ "common" :: rel) = _
    rw [overlay_apply hF]
    simp only [layout, services, if_true, List.flatMap_cons, List.flatMap_nil,
      List.append_nil, Layout.get_append]
    rw [unitLayout_get_none "service1" c db tf ui _ (by simp) (by simp),
      unitLayout_get_none "service2" c db tf ui _ (by simp) (by simp),
      rootLayout_get_below_common rel hrel]
    rfl

/-! ## A run with no middleware list -/

theorem generateIndexContent_undefined (t db : Option String) :
    generateIndexContent t db none
      = .error (.typeError "Cannot read properties of undefined (reading 'map')") := rfl

theorem createService_throws {fs0 : FS} {root : Path} (hF : Fresh fs0 root) (L : Layout)
    (unit : String) (hL : ∀ rel, L.get (unit :: rel) = none)
    (t db tf ui : Option String) :
    createService root t none db tf ui unit (overlay fs0 root L)
      = (.error (.typeError "Cannot read properties of undefined (reading 'map')"),
          overlay fs0 root (L ++ abortedUnitLayout unit)) := by
  simp (disch := simp [Layout.get, Layout.get_root, Layout.get_append_of_none, hL]) only
    [createService, createConfigFiles, abortedUnitLayout, generateIndexContent_undefined,
      pathJoin, Js.bind, Js.pure, Js.ofExcept, Js.throw, bind_apply, pure_apply,
      mkdirSync_step hF, writeFileSync_step hF, List.append_assoc, List.cons_append,
      List.nil_append]

/-- Closed form of a run with `middlewares` undefined, from a fresh root: it
throws a `TypeError` in its first service, after the directories and the
environment file of that service. -/
theorem createMicroservicesStructure_throws {fs0 : FS} {root : Path} (hF : Fresh fs0 root)
    (t : Option String) (pk : Option (List String)) (arch db tf ui : Option String) :
    createMicroservicesStructure root t pk none arch db tf ui fs0
      = (.error (.typeError "Cannot read properties of undefined (reading 'map')"),
          overlay fs0 root (abortedLayout arch)) := by
  show createMicroservicesStructure root t pk none arch db tf ui (overlay fs0 root []) = _
  by_cases harch : arch = some "Microservices"
  · subst harch
    have h1 := createService_throws hF [] "service1" (fun rel => by simp [Layout.get])
      t db tf ui
    rw [List.nil_append] at h1
    simp only [createMicroservicesStructure, services, forEach, h1, Js.bind, bind_apply,
      if_true, abortedLayout]
  · have h1 := createService_throws hF [] "monolith" (fun rel => by simp [Layout.get])
      t db tf ui
    rw [List.nil_append] at h1
    simp only [createMicroservicesStructure, services, forEach, h1, Js.bind, bind_apply,
      harch, if_false, abortedLayout]

theorem emptyProject_fresh (root : Path) : Fresh (emptyProject root) root := by
  constructor
  · simp [emptyProject]
  · intro rel hrel
    have hlen : ¬ ((root ++ rel).isPrefixOf root = true) := by
      rw [List.isPrefixOf_iff_prefix]
      intro h
      have := h.length_le
      simp at this
      exact hrel this
    simp [emptyProject, hlen]

theorem unitLayout_get_model (unit c : String) (db tf ui : Option String) :
    (unitLayout unit c db tf ui).get [unit, "models", "sampleModel.js"]
      = if truthy db = true then some (.file (generateSampleModel db)) else none := by
  cases hdb : truthy db <;> cases htf : truthy tf <;>
    by_cases h1 : ui = some "Tailwind CSS" <;> by_cases h2 : ui = some "Material-UI" <;>
    simp [unitLayout, Layout.get, Layout.get_append, hdb, htf, h1, h2]

theorem unitLayout_get_env (unit c : String) (db tf ui : Option String) :
    (unitLayout unit c db tf ui).get [unit, ".env"] = some (.file envContent) := by
  simp [unitLayout, Layout.get, Layout.get_append]

theorem unitLayout_get_models (unit c : String) (db tf ui : Option String) :
    (unitLayout unit c db tf ui).get [unit, "models"] = some .dir := by
  simp [unitLayout, Layout.get, Layout.get_append]

theorem unitLayout_get_tests (unit c : String) (db tf ui : Option String) :
    (unitLayout unit c db tf ui).get [unit, "tests"]
      = if truthy tf = true then some .dir else none := by
  cases hdb : truthy db <;> cases htf : truthy tf <;>
    by_cases h1 : ui = some "Tailwind CSS" <;> by_cases h2 : ui = some "Material-UI" <;>
    simp [unitLayout, Layout.get, Layout.get_append, hdb, htf, h1, h2]

theorem unitLayout_get_tailwind (unit c : String) (db tf : Option String) :
    (unitLayout unit c db tf (some "Tailwind CSS")).get [unit, "styles", "tailwind.css"]
        = some (.file cssContent)
      ∧ (unitLayout unit c db tf (some "Tailwind CSS")).get [unit, "tailwind.config.js"]
        = some (.file tailwindConfig) := by
  constructor <;> cases hdb : truthy db <;> cases htf : truthy tf <;>
    simp [unitLayout, Layout.get, Layout.get_append, hdb, htf]

/-- C3, as the code has it: in every service directory of a complete run from
a fresh root, models/sampleModel.js is absent when no database is chosen; with
MySQL it is present and empty; with MongoDB it is present and holds the
mongoose schema text; with PostgreSQL it is present and holds the pg Client
connection text. -/
theorem c3_sample_model (fs0 : FS) (root : Path) (hF : Fresh fs0 root)
    (theme : Option String) (packages : Option (List String)) (ms : List String)
    (arch tf ui : Option String) (unit : String) (hu : unit ∈ services arch) :
    (createMicroservicesStructure root theme packages (some ms) arch none tf ui fs0).2
        (root ++ [unit, "models", "sampleModel.js"]) = none
    ∧ (createMicroservicesStructure root theme packages (some ms) arch (some "MySQL")
        tf ui fs0).2 (root ++ [unit, "models", "sampleModel.js"]) = some (.file "")
    ∧ (createMicroservicesStructure root theme packages (some ms) arch (some "MongoDB")
        tf ui fs0).2 (root ++ [unit, "models", "sampleModel.js"])
        = some (.file (String.intercalate "\n"
            ["",
             "const mongoose = require('mongoose');",
             "",
             "const SampleSchema = new mongoose.Schema(\x7b",
             "    name: String,",
             "    age: Number",
             "\x7d);",
             "",
             "module.exports = mongoose.model('Sample', SampleSchema);"]))
    ∧ (createMicroservicesStructure root theme packages (some ms) arch (some "PostgreSQL")
        tf ui fs0).2 (root ++ [unit, "models", "sampleModel.js"])
        = some (.file (String.intercalate "\n"
            ["",
             "const \x7b Client \x7d = require('pg');",
             "",
             "const client = new Client(\x7b connectionString: process.env.DB_URL \x7d);",
             "client.connect();",
             ""])) := by
  refine ⟨?_, ?_, ?_, ?_⟩
  · obtain ⟨c, hc⟩ := generateIndexContent_ok theme none ms
    rw [run_get_unit hF theme packages ms arch none tf ui c hc unit hu, unitLayout_get_model]
    rfl
  · obtain ⟨c, hc⟩ := generateIndexContent_ok theme (some "MySQL") ms
    rw [run_get_unit hF theme packages ms arch _ tf ui c hc unit hu, unitLayout_get_model]
    rfl
  · obtain ⟨c, hc⟩ := generateIndexContent_ok theme (some "MongoDB") ms
    rw [run_get_unit hF theme packages ms arch _ tf ui c hc unit hu, unitLayout_get_model]
    rfl
  · obtain ⟨c, hc⟩ := generateIndexContent_ok theme (some "PostgreSQL") ms
    rw [run_get_unit hF theme packages ms arch _ tf ui c hc unit hu, unitLayout_get_model]
    rfl

/-- C3 fails as stated: with database MySQL the run writes
models/sampleModel.js, as an empty file. -/
theorem c3_counterexample_mysql :
    (createMicroservicesStructure ["home", "user", "project"] (some "REST API")
        (some ["Express"]) (some ["morgan"]) (some "Monolith") (some "MySQL") none none
        (emptyProject ["home", "user", "project"])).2
      ["home", "user", "project", "monolith", "models", "sampleModel.js"]
      = some (.file "") := by
  rfl

/-- The amended statement of C3 at the root /home/user/project with no database. -/
theorem c3_sample_model_witness :
    Fresh (emptyProject ["home", "user", "project"]) ["home", "user", "project"]
    ∧ "monolith" ∈ services (some "Monolith")
    ∧ (createMicroservicesStructure ["home", "user", "project"] (some "REST API")
        (some ["Express"]) (some ["morgan"]) (some "Monolith") none (some "Jest") none
        (emptyProject ["home", "user", "project"])).2
      (["home", "user", "project"] ++ ["monolith", "models", "sampleModel.js"]) = none :=
  ⟨emptyProject_fresh _, by decide,
    (c3_sample_model (emptyProject ["home", "user", "project"]) ["home", "user", "project"]
      (emptyProject_fresh _) (some "REST API") (some ["Express"]) ["morgan"]
      (some "Monolith") (some "Jest") none "monolith" (by decide)).1⟩

theorem Layout.mem_of_get {L : Layout} {rel : Path} {n : Node} (hne : rel ≠ [])
    (h : L.get rel = some n) : (rel, n) ∈ L := by
  induction L with
  | nil => simp [Layout.get, hne] at h
  | cons e L ih =>
    by_cases hcond : e.1 ≠ [] ∧ e.1 = rel
    · simp only [Layout.get, if_pos hcond, Option.some.injEq] at h
      rw [← h, ← hcond.2]
      exact List.mem_cons_self _ _
    · simp only [Layout.get, if_neg hcond] at h
      exact List.mem_cons_of_mem _ (ih h)

/-- Every file a service holds, at any depth, is one of nine. -/
theorem unitLayout_files (unit c : String) (db tf ui : Option String) (rel : Path)
    (content : String)
    (h : (unitLayout unit c db tf ui).get (unit :: rel) = some (.file content)) :
    rel ∈ [[".env"], ["index.js"], ["controllers", "sampleController.js"],
      ["routes", "sampleRoute.js"], ["models", "sampleModel.js"],
      ["tests", "sampleController.test.js"], ["tailwind.config.js"],
      ["styles", "tailwind.css"], ["components", "SampleButton.js"]] := by
  have hm := Layout.mem_of_get (by simp) h
  unfold unitLayout at hm
  simp only [List.mem_append, List.mem_cons, List.mem_singleton, List.not_mem_nil,
    or_false, List.mem_ite_nil_right, Prod.mk.injEq, List.cons.injEq, and_true, true_and,
    reduceCtorEq, and_false, false_and, false_or, or_false, List.cons_ne_nil,
    List.nil_eq, List.cons_ne_self] at hm
  rcases hm with (((hm | hm | hm | hm) | hm) | hm) | hm
  · rw [hm.1]
    decide
  · rw [hm.1]
    decide
  · rw [hm.1]
    decide
  · rw [hm.1]
    decide
  · rw [hm.2.1]
    decide
  · rw [hm.2.1]
    decide
  · split_ifs at hm
    · simp only [List.mem_cons, List.mem_singleton, List.not_mem_nil, or_false,
        Prod.mk.injEq, List.cons.injEq, and_true, true_and, reduceCtorEq, and_false,
        false_and, false_or, List.cons_ne_nil] at hm
      rcases hm with hm | hm
      · rw [hm.1]
        decide
      · rw [hm.1]
        decide
    · simp only [List.mem_cons, List.mem_singleton, List.not_mem_nil, or_false,
        Prod.mk.injEq, List.cons.injEq, and_true, true_and, reduceCtorEq, and_false,
        false_and, false_or, List.cons_ne_nil] at hm
      rw [hm.1]
      decide
    · cases hm

/-- The only file a service holds when the run throws is its `.env`. -/
theorem abortedUnitLayout_files (unit : String) (rel : Path) (content : String)
    (h : (abortedUnitLayout unit).get (unit :: rel) = some (.file content)) :
    rel = [".env"] := by
  have hm := Layout.mem_of_get (by simp) h
  unfold abortedUnitLayout at hm
  simp only [List.mem_cons, List.mem_singleton, List.not_mem_nil, or_false, Prod.mk.injEq,
    List.cons.injEq, and_true, true_and, reduceCtorEq, and_false, false_and, false_or,
    List.cons_ne_nil, List.nil_eq, List.cons_ne_self] at hm
  exact hm.1

theorem abortedUnitLayout_get_env (unit : String) :
    (abortedUnitLayout unit).get [unit, ".env"] = some (.file envContent) := by
  simp [abortedUnitLayout, Layout.get]

theorem abortedUnitLayout_get_other (unit other : String) (h : other ≠ unit) :
    (abortedUnitLayout unit).get [other] = none := by
  have e : ¬ (unit = other) := fun h2 => h h2.symm
  simp [abortedUnitLayout, Layout.get, e]

/-- After a run with `middlewares` undefined from a fresh root, a service
directory that exists is the first one, and the paths below it name what the
aborted layout says. -/
theorem throws_get_unit {fs0 : FS} {root : Path} (hF : Fresh fs0 root)
    (t : Option String) (pk : Option (List String)) (arch db tf ui : Option String)
    (unit : String)
    (hdir : (createMicroservicesStructure root t pk none arch db tf ui fs0).2
      (root ++ [unit]) = some .dir) (rel : Path) :
    (createMicroservicesStructure root t pk none arch db tf ui fs0).2 (root ++ unit :: rel)
      = (abortedUnitLayout unit).get (unit :: rel) := by
  rw [createMicroservicesStructure_throws hF] at hdir ⊢
  have hdir2 : (abortedLayout arch).get [unit] = some .dir := by
    rw [← overlay_apply hF]
    exact hdir
  show overlay fs0 root _ (root ++ unit :: rel) = _
  rw [overlay_apply hF]
  unfold abortedLayout at hdir2 ⊢
  split at hdir2
  · rename_i harch
    rw [if_pos harch]
    by_cases hu : unit = "service1"
    · rw [hu]
    · rw [abortedUnitLayout_get_other "service1" unit hu] at hdir2
      cases hdir2
  · rename_i harch
    rw [if_neg harch]
    by_cases hu : unit = "monolith"
    · rw [hu]
    · rw [abortedUnitLayout_get_other "monolith" unit hu] at hdir2
      cases hdir2

/-- C5, as the code has it: for every choice (a dismissed prompt included) and
every service directory that a run from a fresh root creates, whatever the
database choice, the directory holds the file .env, whose text is the comment
line `# Environment Variables` followed by the two entries `PORT=3000` and
`DB_URL=YOUR_DATABASE_URL_HERE`, each line ended by a newline; every file the
service holds, at any depth, is one of nine named ones, so .env is the only
file of that name in the unit. -/
theorem c5_env_file (fs0 : FS) (root : Path) (hF : Fresh fs0 root)
    (theme : Option String) (packages middlewares : Option (List String))
    (arch db tf ui : Option String) (unit : String) (hu : unit ∈ services arch)
    (hdir : (createMicroservicesStructure root theme packages middlewares arch db tf ui
      fs0).2 (root ++ [unit]) = some .dir) :
    (createMicroservicesStructure root theme packages middlewares arch db tf ui fs0).2
        (root ++ [unit, ".env"])
      = some (.file "# Environment Variables\nPORT=3000\nDB_URL=YOUR_DATABASE_URL_HERE\n")
    ∧ textLines "# Environment Variables\nPORT=3000\nDB_URL=YOUR_DATABASE_URL_HERE\n"
      = ["# Environment Variables", "PORT=3000", "DB_URL=YOUR_DATABASE_URL_HERE"]
    ∧ (∀ (rel : Path) (content : String),
        (createMicroservicesStructure root theme packages middlewares arch db tf ui fs0).2
          (root ++ unit :: rel) = some (.file content) →
        rel ∈ [[".env"], ["index.js"], ["controllers", "sampleController.js"],
          ["routes", "sampleRoute.js"], ["models", "sampleModel.js"],
          ["tests", "sampleController.test.js"], ["tailwind.config.js"],
          ["styles", "tailwind.css"], ["components", "SampleButton.js"]])
    ∧ (∀ (rel : Path) (content : String),
        (createMicroservicesStructure root theme packages middlewares arch db tf ui fs0).2
          (root ++ unit :: rel) = some (.file content) →
        rel.getLast? = some ".env" → rel = [".env"]) := by
  have hlist : ∀ rel : Path,
      rel ∈ [[".env"], ["index.js"], ["controllers", "sampleController.js"],
        ["routes", "sampleRoute.js"], ["models", "sampleModel.js"],
        ["tests", "sampleController.test.js"], ["tailwind.config.js"],
        ["styles", "tailwind.css"], ["components", "SampleButton.js"]] →
      rel.getLast? = some ".env" → rel = [".env"] := by
    intro rel hrel hlast
    simp only [List.mem_cons, List.mem_singleton, List.not_mem_nil, or_false] at hrel
    rcases hrel with h | h | h | h | h | h | h | h | h <;> subst h <;>
      first
        | rfl
        | (exfalso; revert hlast; decide)
  cases middlewares with
  | none =>
    have hget := throws_get_unit hF theme packages arch db tf ui unit hdir
    have hfiles : ∀ (rel : Path) (content : String),
        (createMicroservicesStructure root theme packages none arch db tf ui fs0).2
          (root ++ unit :: rel) = some (.file content) → rel = [".env"] := by
      intro rel content h
      rw [hget rel] at h
      exact abortedUnitLayout_files unit rel content h
    refine ⟨?_, by decide, ?_, ?_⟩
    · rw [hget [".env"], abortedUnitLayout_get_env]
      rfl
    · intro rel content h
      rw [hfiles rel content h]
      decide
    · intro rel content h _
      exact hfiles rel content h
  | some ms =>
    obtain ⟨c, hc⟩ := generateIndexContent_ok theme db ms
    have hget := run_get_unit hF theme packages ms arch db tf ui c hc unit hu
    have hfiles : ∀ (rel : Path) (content : String),
        (createMicroservicesStructure root theme packages (some ms) arch db tf ui fs0).2
          (root ++ unit :: rel) = some (.file content) →
        rel ∈ [[".env"], ["index.js"], ["controllers", "sampleController.js"],
          ["routes", "sampleRoute.js"], ["models", "sampleModel.js"],
          ["tests", "sampleController.test.js"], ["tailwind.config.js"],
          ["styles", "tailwind.css"], ["components", "SampleButton.js"]] := by
      intro rel content h
      rw [hget rel] at h
      exact unitLayout_files unit c db tf ui rel content h
    refine ⟨?_, by decide, hfiles, ?_⟩
    · rw [hget [".env"], unitLayout_get_env]
      rfl
    · intro rel content h hlast
      exact hlist rel (hfiles rel content h) hlast

/-- C5 fails as stated: the text of .env has three lines, the first one a
comment, not the two entries alone. -/
theorem c5_counterexample_env_lines :
    (createMicroservicesStructure ["home", "user", "project"] (some "REST API")
        (some ["Express"]) (some ["morgan"]) (some "Monolith") (some "MongoDB") none none
        (emptyProject ["home", "user", "project"])).2
      ["home", "user", "project", "monolith", ".env"]
      = some (.file "# Environment Variables\nPORT=3000\nDB_URL=YOUR_DATABASE_URL_HERE\n")
    ∧ textLines "# Environment Variables\nPORT=3000\nDB_URL=YOUR_DATABASE_URL_HERE\n"
      ≠ ["PORT=3000", "DB_URL=YOUR_DATABASE_URL_HERE"] :=
  ⟨rfl, by decide⟩

/-- The amended statement of C5 at the root /home/user/project, for service2
with PostgreSQL. -/
theorem c5_env_file_witness :
    Fresh (emptyProject ["home", "user", "project"]) ["home", "user", "project"]
    ∧ "service2" ∈ services (some "Microservices")
    ∧ (createMicroservicesStructure ["home", "user", "project"] (some "GraphQL")
        none (some []) (some "Microservices") (some "PostgreSQL") none none
        (emptyProject ["home", "user", "project"])).2
      (["home", "user", "project"] ++ ["service2"]) = some .dir
    ∧ (createMicroservicesStructure ["home", "user", "project"] (some "GraphQL")
        none (some []) (some "Microservices") (some "PostgreSQL") none none
        (emptyProject ["home", "user", "project"])).2
      (["home", "user", "project"] ++ ["service2", ".env"])
      = some (.file "# Environment Variables\nPORT=3000\nDB_URL=YOUR_DATABASE_URL_HERE\n") :=
  ⟨emptyProject_fresh _, by decide, rfl,
    (c5_env_file (emptyProject ["home", "user", "project"]) ["home", "user", "project"]
      (emptyProject_fresh _) (some "GraphQL") none (some []) (some "Microservices")
      (some "PostgreSQL") none none "service2" (by decide) rfl).1⟩

/-- C8 fails on the code: when the middleware prompt is dismissed,
`middlewares` is `undefined` and the run throws a `TypeError` in its first
service, after the seven directories and the environment file and before
index.js; the tests folder of the chosen testing framework is never made. -/
theorem c8_undefined_middlewares_throws :
    (createMicroservicesStructure ["home", "user", "project"] (some "REST API")
        (some ["Express"]) none (some "Monolith") (some "MongoDB") (some "Jest") none
        (emptyProject ["home", "user", "project"])).1
      = .error (.typeError "Cannot read properties of undefined (reading 'map')")
    ∧ (createMicroservicesStructure ["home", "user", "project"] (some "REST API")
        (some ["Express"]) none (some "Monolith") (some "MongoDB") (some "Jest") none
        (emptyProject ["home", "user", "project"])).2
      ["home", "user", "project", "monolith", ".env"] = some (.file envContent)
    ∧ (createMicroservicesStructure ["home", "user", "project"] (some "REST API")
        (some ["Express"]) none (some "Monolith") (some "MongoDB") (some "Jest") none
        (emptyProject ["home", "user", "project"])).2
      ["home", "user", "project", "monolith", "index.js"] = none
    ∧ (createMicroservicesStructure ["home", "user", "project"] (some "REST API")
        (some ["Express"]) none (some "Monolith") (some "MongoDB") (some "Jest") none
        (emptyProject ["home", "user", "project"])).2
      ["home", "user", "project", "monolith", "tests"] = none :=
  ⟨rfl, rfl, rfl, rfl⟩

/-- C1 fails on the code, by the defect of C8: with the middleware prompt
dismissed, Jest and Tailwind CSS chosen, the run throws; the service directory
monolith exists with its six subfolders, but it holds neither the tests folder
of the chosen testing framework nor the styles folder of Tailwind CSS. -/
theorem c1_undefined_middlewares_no_tests :
    (createMicroservicesStructure ["home", "user", "project"] (some "REST API")
        (some ["Express"]) none (some "Monolith") (some "MongoDB") (some "Jest")
        (some "Tailwind CSS") (emptyProject ["home", "user", "project"])).2
      ["home", "user", "project", "monolith"] = some .dir
    ∧ (createMicroservicesStructure ["home", "user", "project"] (some "REST API")
        (some ["Express"]) none (some "Monolith") (some "MongoDB") (some "Jest")
        (some "Tailwind CSS") (emptyProject ["home", "user", "project"])).2
      ["home", "user", "project", "monolith", "services"] = some .dir
    ∧ truthy (some "Jest") = true
    ∧ (createMicroservicesStructure ["home", "user", "project"] (some "REST API")
        (some ["Express"]) none (some "Monolith") (some "MongoDB") (some "Jest")
        (some "Tailwind CSS") (emptyProject ["home", "user", "project"])).2
      ["home", "user", "project", "monolith", "tests"] = none
    ∧ (createMicroservicesStructure ["home", "user", "project"] (some "REST API")
        (some ["Express"]) none (some "Monolith") (some "MongoDB") (some "Jest")
        (some "Tailwind CSS") (emptyProject ["home", "user", "project"])).2
      ["home", "user", "project", "monolith", "styles"] = none :=
  ⟨rfl, rfl, rfl, rfl, rfl⟩

/-- C2 fails on the code, by the defect of C8: with architecture Microservices
and the middleware prompt dismissed, the run throws in service1; service1 is
the only directory under the root, service2 and common are never made. -/
theorem c2_undefined_middlewares_one_unit :
    (createMicroservicesStructure ["home", "user", "project"] (some "REST API")
        (some ["Express"]) none (some "Microservices") (some "MongoDB") (some "Jest") none
        (emptyProject ["home", "user", "project"])).1
      = .error (.typeError "Cannot read properties of undefined (reading 'map')")
    ∧ (createMicroservicesStructure ["home", "user", "project"] (some "REST API")
        (some ["Express"]) none (some "Microservices") (some "MongoDB") (some "Jest") none
        (emptyProject ["home", "user", "project"])).2
      ["home", "user", "project", "service1"] = some .dir
    ∧ (createMicroservicesStructure ["home", "user", "project"] (some "REST API")
        (some ["Express"]) none (some "Microservices") (some "MongoDB") (some "Jest") none
        (emptyProject ["home", "user", "project"])).2
      ["home", "user", "project", "service2"] = none
    ∧ (createMicroservicesStructure ["home", "user", "project"] (some "REST API")
        (some ["Express"]) none (some "Microservices") (some "MongoDB") (some "Jest") none
        (emptyProject ["home", "user", "project"])).2
      ["home", "user", "project", "common"] = none :=
  ⟨rfl, rfl, rfl, rfl⟩

/-- C9, as the code has it: with architecture Microservices, no database, no
testing framework and UI framework Tailwind CSS (any theme, packages and
middleware list), a run from a fresh root completes; the directories directly
under the root are service1, service2 and common; each of the two units holds
styles/tailwind.css with exactly the three directives `@tailwind base;`,
`@tailwind components;`, `@tailwind utilities;` and a file tailwind.config.js;
neither unit holds a tests folder; each unit holds the folder models, and no
model file in it. -/
theorem c9_tailwind_microservices (fs0 : FS) (root : Path) (hF : Fresh fs0 root)
    (theme : Option String) (packages : Option (List String)) (ms : List String) :
    (createMicroservicesStructure root theme packages (some ms) (some "Microservices")
        none none (some "Tailwind CSS") fs0).1 = .ok ()
    ∧ (∀ name : String,
        (createMicroservicesStructure root theme packages (some ms) (some "Microservices")
          none none (some "Tailwind CSS") fs0).2 (root ++ [name]) = some .dir
        ↔ name = "service1" ∨ name = "service2" ∨ name = "common")
    ∧ (∀ unit ∈ ["service1", "service2"],
        (createMicroservicesStructure root theme packages (some ms) (some "Microservices")
            none none (some "Tailwind CSS") fs0).2 (root ++ [unit, "styles", "tailwind.css"])
          = some (.file (String.intercalate "\n"
              ["@tailwind base;", "@tailwind components;", "@tailwind utilities;"]))
        ∧ (createMicroservicesStructure root theme packages (some ms) (some "Microservices")
            none none (some "Tailwind CSS") fs0).2 (root ++ [unit, "tailwind.config.js"])
          = some (.file tailwindConfig)
        ∧ (createMicroservicesStructure root theme packages (some ms) (some "Microservices")
            none none (some "Tailwind CSS") fs0).2 (root ++ [unit, "tests"]) = none
        ∧ (createMicroservicesStructure root theme packages (some ms) (some "Microservices")
            none none (some "Tailwind CSS") fs0).2 (root ++ [unit, "models"]) = some .dir
        ∧ (createMicroservicesStructure root theme packages (some ms) (some "Microservices")
            none none (some "Tailwind CSS") fs0).2
              (root ++ [unit, "models", "sampleModel.js"]) = none) := by
  obtain ⟨c, hc⟩ := generateIndexContent_ok theme none ms
  have hrun := createMicroservicesStructure_run hF theme packages ms (some "Microservices")
    none none (some "Tailwind CSS") c hc
  refine ⟨?_, ?_, ?_⟩
  · rw [hrun]
  · intro name
    rw [hrun]
    show overlay fs0 root _ (root ++ [name]) = _ ↔ _
    rw [overlay_apply hF]
    simp only [layout, services, if_true, List.flatMap_cons, List.flatMap_nil,
      List.append_nil, Layout.get_append]
    by_cases h1 : name = "service1"
    · subst h1
      simp [unitLayout_get_self]
    · rw [unitLayout_get_none "service1" c _ _ _ [name] (by simp) (by simpa using h1)]
      by_cases h2 : name = "service2"
      · subst h2
        simp [unitLayout_get_self]
      · rw [unitLayout_get_none "service2" c _ _ _ [name] (by simp) (by simpa using h2)]
        simp [rootLayout_get_dir, h1, h2]
  · intro unit hu
    have hu2 : unit ∈ services (some "Microservices") := hu
    have hget := run_get_unit hF theme packages ms (some "Microservices") none none
      (some "Tailwind CSS") c hc unit hu2
    refine ⟨?_, ?_, ?_, ?_, ?_⟩
    · rw [hget ["styles", "tailwind.css"], (unitLayout_get_tailwind unit c none none).1]
      rfl
    · rw [hget ["tailwind.config.js"], (unitLayout_get_tailwind unit c none none).2]
    · rw [hget ["tests"], unitLayout_get_tests]
      rfl
    · rw [hget ["models"], unitLayout_get_models]
    · rw [hget ["models", "sampleModel.js"], unitLayout_get_model]
      rfl

/-- C9 fails as stated: each unit holds a models folder. -/
theorem c9_counterexample_models_folder :
    (createMicroservicesStructure ["home", "user", "project"] none none (some [])
        (some "Microservices") none none (some "Tailwind CSS")
        (emptyProject ["home", "user", "project"])).2
      ["home", "user", "project", "service1", "models"] = some .dir := by
  rfl

/-- The statement of C9 at the root /home/user/project with an empty middleware list. -/
theorem c9_tailwind_microservices_witness :
    Fresh (emptyProject ["home", "user", "project"]) ["home", "user", "project"]
    ∧ (createMicroservicesStructure ["home", "user", "project"] none none (some [])
        (some "Microservices") none none (some "Tailwind CSS")
        (emptyProject ["home", "user", "project"])).1 = .ok () :=
  ⟨emptyProject_fresh _,
    (c9_tailwind_microservices (emptyProject ["home", "user", "project"])
      ["home", "user", "project"] (emptyProject_fresh _) none none []).1⟩

theorem overlay_outside (fs0 : FS) (root : Path) (L : Layout) (q : Path)
    (hq : ¬ root <+: q) : overlay fs0 root L q = fs0 q := by
  induction L with
  | nil => rfl
  | cons e L ih =>
    have hcond : ¬ (e.1 ≠ [] ∧ root ++ e.1 = q) := by
      rintro ⟨_, h⟩
      exact hq ⟨e.1, h⟩
    simp only [overlay, if_neg hcond, ih]

/-- C10: for every value of the choices (a dismissed prompt included) and any
two fresh roots, the two runs end the same way, and every path relative to the
root names the same thing in both results: a directory in both, a file of the
same text in both, or nothing in both; and neither run changes anything
outside its root. -/
theorem c10_root_independent (fs1 : FS) (root1 : Path) (hF1 : Fresh fs1 root1)
    (fs2 : FS) (root2 : Path) (hF2 : Fresh fs2 root2)
    (theme : Option String) (packages middlewares : Option (List String))
    (arch db tf ui : Option String) :
    (createMicroservicesStructure root1 theme packages middlewares arch db tf ui fs1).1
      = (createMicroservicesStructure root2 theme packages middlewares arch db tf ui fs2).1
    ∧ (∀ rel : Path,
        (createMicroservicesStructure root1 theme packages middlewares arch db tf ui fs1).2
            (root1 ++ rel)
          = (createMicroservicesStructure root2 theme packages middlewares arch db tf ui
              fs2).2 (root2 ++ rel))
    ∧ (∀ q : Path, ¬ root1 <+: q →
        (createMicroservicesStructure root1 theme packages middlewares arch db tf ui fs1).2 q
          = fs1 q) := by
  cases middlewares with
  | none =>
    rw [createMicroservicesStructure_throws hF1, createMicroservicesStructure_throws hF2]
    refine ⟨rfl, fun rel => ?_, fun q hq => overlay_outside fs1 root1 _ q hq⟩
    show overlay fs1 root1 _ (root1 ++ rel) = overlay fs2 root2 _ (root2 ++ rel)
    rw [overlay_apply hF1, overlay_apply hF2]
  | some ms =>
    obtain ⟨c, hc⟩ := generateIndexContent_ok theme db ms
    rw [createMicroservicesStructure_run hF1 theme packages ms arch db tf ui c hc,
      createMicroservicesStructure_run hF2 theme packages ms arch db tf ui c hc]
    refine ⟨rfl, fun rel => ?_, fun q hq => overlay_outside fs1 root1 _ q hq⟩
    show overlay fs1 root1 _ (root1 ++ rel) = overlay fs2 root2 _ (root2 ++ rel)
    rw [overlay_apply hF1, overlay_apply hF2]

/-- The statement of C10 at the roots /home/user/project and /srv/app, read at
service2/index.js. -/
theorem c10_root_independent_witness :
    Fresh (emptyProject ["home", "user", "project"]) ["home", "user", "project"]
    ∧ Fresh (emptyProject ["srv", "app"]) ["srv", "app"]
    ∧ (createMicroservicesStructure ["home", "user", "project"] (some "REST API")
        (some ["Express"]) (some ["morgan", "morgan"]) (some "Microservices")
        (some "PostgreSQL") (some "Mocha") (some "Material-UI")
        (emptyProject ["home", "user", "project"])).2
          (["home", "user", "project"] ++ ["service2", "index.js"])
      = (createMicroservicesStructure ["srv", "app"] (some "REST API")
        (some ["Express"]) (some ["morgan", "morgan"]) (some "Microservices")
        (some "PostgreSQL") (some "Mocha") (some "Material-UI")
        (emptyProject ["srv", "app"])).2 (["srv", "app"] ++ ["service2", "index.js"]) :=
  ⟨emptyProject_fresh _, emptyProject_fresh _,
    (c10_root_independent (emptyProject ["home", "user", "project"])
      ["home", "user", "project"] (emptyProject_fresh _) (emptyProject ["srv", "app"])
      ["srv", "app"] (emptyProject_fresh _) (some "REST API") (some ["Express"])
      (some ["morgan", "morgan"]) (some "Microservices") (some "PostgreSQL") (some "Mocha")
      (some "Material-UI")).2.1 ["service2", "index.js"]⟩

/-! ## Joining and splitting lines -/

theorem intercalate_go_append (sep x y : String) (rest : List String) :
    String.intercalate.go (x ++ y) sep rest = x ++ String.intercalate.go y sep rest := by
  induction rest generalizing y with
  | nil => rfl
  | cons c r ih =>
    simp only [String.intercalate.go]
    rw [String.append_assoc, String.append_assoc, ih, String.append_assoc]

theorem join_eq_intercalate (l : List String) (sep : String) :
    join l sep = String.intercalate sep l := by
  cases l with
  | nil => rfl
  | cons a as =>
    induction as generalizing a with
    | nil => rfl
    | cons b rest ih =>
      have h := ih b
      simp only [String.intercalate] at h ⊢
      simp only [join, String.intercalate.go]
      rw [h, intercalate_go_append]

theorem join_data (l : List String) :
    (join l "\n").data = List.intercalate ['\n'] (l.map String.data) := by
  cases l with
  | nil => rfl
  | cons a as =>
    induction as generalizing a with
    | nil => simp [join, List.intercalate]
    | cons b rest ih =>
      have h := ih b
      simp only [join, String.data_append, h]
      simp [List.intercalate]

theorem map_mk_data (l : List String) : (l.map String.data).map String.mk = l := by
  induction l with
  | nil => rfl
  | cons a as ih =>
    simp only [List.map_cons, ih]

theorem textLines_join (l : List String) (h1 : ∀ s ∈ l, '\n' ∉ s.data)
    (h2 : ∀ s ∈ l, s ≠ "") : textLines (join l "\n") = l := by
  by_cases hl : l = []
  · subst hl
    decide
  · have hsplit : (join l "\n").data.splitOn '\n' = l.map String.data := by
      rw [join_data]
      apply List.splitOn_intercalate
      · intro s hs
        obtain ⟨t, ht, rfl⟩ := List.mem_map.mp hs
        exact h1 t ht
      · simpa using hl
    have hmk : (l.map String.data).map String.mk = l := map_mk_data l
    have hlast : l.getLast? ≠ some "" := by
      intro h
      have hmem : "" ∈ l := List.mem_of_getLast?_eq_some h
      exact h2 "" hmem rfl
    unfold textLines
    simp only [hsplit, hmk, if_neg hlast]

theorem importLine_no_newline (m : String) (h : '\n' ∉ m.data) :
    '\n' ∉ ("const " ++ m ++ " = require('" ++ m ++ "');").data := by
  simp only [String.data_append, List.mem_append, not_or]
  refine ⟨⟨⟨⟨by decide, h⟩, by decide⟩, h⟩, by decide⟩

theorem usageLine_no_newline (m : String) (h : '\n' ∉ m.data) :
    '\n' ∉ ("app.use(" ++ m ++ "());").data := by
  simp only [String.data_append, List.mem_append, not_or]
  refine ⟨⟨by decide, h⟩, by decide⟩

theorem importLine_ne_empty (m : String) : "const " ++ m ++ " = require('" ++ m ++ "');" ≠ "" := by
  intro h
  have := congrArg String.length h
  simp only [String.length_append] at this
  have h6 : "const ".length = 6 := by decide
  have h0 : "".length = 0 := by decide
  omega

theorem usageLine_ne_empty (m : String) : "app.use(" ++ m ++ "());" ≠ "" := by
  intro h
  have := congrArg String.length h
  simp only [String.length_append] at this
  have h8 : "app.use(".length = 8 := by decide
  have h0 : "".length = 0 := by decide
  omega

/-- C4: there are a fixed head and a fixed tail such that, for every theme,
database value and middleware list `ms` (any length, duplicates allowed), the
text of `generateIndexContent` is the head, then the import lines
`const m = require('m');` of the elements of `ms` in their order joined by
newlines, then the database snippet, then `app.use(express.json());`, then the
usage lines `app.use(m());` of the elements of `ms` in their order joined by
newlines, then the `/api` route line, then the tail; the database snippet is
empty for every database value other than MongoDB and PostgreSQL; and when no
name holds a newline, each block has exactly one line per element of `ms`. -/
theorem c4_index_content :
    ∃ head tail : String, ∀ (theme db : Option String) (ms : List String),
      generateIndexContent theme db (some ms)
        = .ok (head
            ++ String.intercalate "\n" (ms.map fun m => "const " ++ m ++ " = require('" ++ m ++ "');")
            ++ "\n"
            ++ dbConnection db
            ++ "\n" ++ "\n"
            ++ "app.use(express.json());\n"
            ++ String.intercalate "\n" (ms.map fun m => "app.use(" ++ m ++ "());")
            ++ "\n"
            ++ "app.use('/api', require('./routes/sampleRoute'));\n"
            ++ tail)
      ∧ (db ≠ some "MongoDB" → db ≠ some "PostgreSQL" → dbConnection db = "")
      ∧ ((∀ m ∈ ms, '\n' ∉ m.data) →
          textLines (String.intercalate "\n"
              (ms.map fun m => "const " ++ m ++ " = require('" ++ m ++ "');"))
            = ms.map (fun m => "const " ++ m ++ " = require('" ++ m ++ "');")
          ∧ textLines (String.intercalate "\n" (ms.map fun m => "app.use(" ++ m ++ "());"))
            = ms.map (fun m => "app.use(" ++ m ++ "());")) := by
  refine ⟨"\n" ++
      "const express = require('express');\n" ++
      "const app = express();\n" ++
      "const PORT = process.env.PORT || 3000;\n" ++
      "\n",
    "\n" ++
      "app.listen(PORT, () => \x7b\n" ++
      "    console.log(\x60Service running on port $\x7bPORT\x7d\x60);\n" ++
      "\x7d);", fun theme db ms => ⟨?_, ?_, ?_⟩⟩
  · simp only [generateIndexContent, join_eq_intercalate, String.append_assoc]
  · intro h1 h2
    simp [dbConnection, h1, h2]
  · intro hms
    rw [← join_eq_intercalate, ← join_eq_intercalate]
    constructor
    · apply textLines_join
      · intro s hs
        obtain ⟨m, hm, rfl⟩ := List.mem_map.mp hs
        exact importLine_no_newline m (hms m hm)
      · intro s hs
        obtain ⟨m, _, rfl⟩ := List.mem_map.mp hs
        exact importLine_ne_empty m
    · apply textLines_join
      · intro s hs
        obtain ⟨m, hm, rfl⟩ := List.mem_map.mp hs
        exact usageLine_no_newline m (hms m hm)
      · intro s hs
        obtain ⟨m, _, rfl⟩ := List.mem_map.mp hs
        exact usageLine_ne_empty m

/-- C7: with no packages (the prompt dismissed, or an empty selection)
`installPackages` spawns no process and returns `undefined`, so there is
nothing to wait for; with a non-empty package list it spawns exactly one
process, whose command is `npm install ` followed by the package names in
their order joined by single spaces, and whose working directory is the
project root. -/
theorem c7_install_invocation (exec : ExecCall → ExecResult) (basePath : Path) :
    installPackages exec basePath none = { spawned := [], returned := none, logged := [] }
    ∧ installPackages exec basePath (some [])
        = { spawned := [], returned := none, logged := [] }
    ∧ (∀ (p : String) (ps : List String),
        (installPackages exec basePath (some (p :: ps))).spawned
          = [{ command := "npm install " ++ String.intercalate " " (p :: ps),
               cwd := basePath }]) := by
  refine ⟨rfl, rfl, fun p ps => ?_⟩
  simp only [installPackages, List.length_cons, Nat.zero_lt_succ, if_true,
    join_eq_intercalate]
  split <;> rfl

/-- C6: for a non-empty package list, when every install process the call
spawns reports an error, the promise of `installPackages` rejects with the
message `Error installing packages: ` followed by the whole captured stderr,
and the scaffold command shows no success message. -/
theorem c6_install_failure (exec : ExecCall → ExecResult) (basePath : Path)
    (p : String) (ps : List String)
    (herr : ∀ call ∈ (installPackages exec basePath (some (p :: ps))).spawned,
      (exec call).error.isSome = true) :
    (∃ call : ExecCall,
        (installPackages exec basePath (some (p :: ps))).spawned = [call]
        ∧ (installPackages exec basePath (some (p :: ps))).returned
          = some (.rejected ("Error installing packages: " ++ (exec call).stderr)))
    ∧ (∀ (prompts : Prompts) (fs0 : FS) (others : List Path),
        prompts.folderUri = some (basePath :: others) →
        prompts.packages = some (p :: ps) →
        (createMicroservicesCommand exec prompts fs0).infoMessages = []) := by
  have hcall : (exec { command := "npm install " ++ join (p :: ps) " ", cwd := basePath }).error.isSome
      = true := by
    apply herr
    simp only [installPackages, List.length_cons, Nat.zero_lt_succ, if_true]
    split <;> simp
  have hret : (installPackages exec basePath (some (p :: ps))).returned
      = some (.rejected ("Error installing packages: "
          ++ (exec { command := "npm install " ++ join (p :: ps) " ",
                     cwd := basePath }).stderr)) := by
    simp only [installPackages, List.length_cons, Nat.zero_lt_succ, if_true, hcall]
  refine ⟨⟨{ command := "npm install " ++ join (p :: ps) " ", cwd := basePath }, ?_, hret⟩, ?_⟩
  · simp only [installPackages, List.length_cons, Nat.zero_lt_succ, if_true, hcall]
  · intro prompts fs0 others hfolder hpk
    simp only [createMicroservicesCommand, hfolder, hpk]
    split
    · rfl
    · rw [hret]

/-- The statement of C6 for a process that always fails with stderr
`npm ERR! 404`. -/
theorem c6_install_failure_witness :
    (∀ call ∈ (installPackages
          (fun _ => { error := some "exit code 1", stdout := "", stderr := "npm ERR! 404" })
          ["home", "user", "project"] (some ["Express", "Cors"])).spawned,
        ((fun _ => ({ error := some "exit code 1", stdout := "",
                      stderr := "npm ERR! 404" } : ExecResult)) call).error.isSome = true)
    ∧ (installPackages
          (fun _ => { error := some "exit code 1", stdout := "", stderr := "npm ERR! 404" })
          ["home", "user", "project"] (some ["Express", "Cors"])).returned
        = some (.rejected "Error installing packages: npm ERR! 404") := by
  have h := c6_install_failure
    (fun _ => { error := some "exit code 1", stdout := "", stderr := "npm ERR! 404" })
    ["home", "user", "project"] "Express" ["Cors"] (fun _ _ => rfl)
  refine ⟨fun _ _ => rfl, ?_⟩
  obtain ⟨call, _, hret⟩ := h.1
  rw [hret]
  rfl

end Scaffold
